import Mathlib

/-
Verification of the affine-transformation subsystem of 3DViewer_v2.0
(src/src/transformation/transformation.hpp).  The header declares the
classes `TransformationStrategy`, `Rotate`, `Move`, `Scale` and
`ObjectTransformer` together with the enum `Movement`; the method bodies
and the `Point` type (declared in src/object/object.hpp) are not among
the visible sources, so they are modelled from the specification.
Double-precision coordinates are idealized as real numbers.
-/

namespace s21

/-- Modelled from the spec: `Point` lives in `src/object/object.hpp`, which is
not among the visible sources.  The spec (§3) describes it as three
double-precision floating-point fields (x, y, z) with mutable value;
coordinates are idealized as real numbers here. -/
@[ext]
structure Point where
  x : ℝ
  y : ℝ
  z : ℝ

/-- The `Movement` enumeration from `transformation.hpp` (line 22):
`enum Movement { MoveX, MoveY, MoveZ, RotateX, RotateY, RotateZ, SCALE }`. -/
inductive Movement where
  | MoveX
  | MoveY
  | MoveZ
  | RotateX
  | RotateY
  | RotateZ
  | SCALE
deriving DecidableEq

/-- Modelled from the spec: the degrees-to-radians conversion performed inside
the `Rotate` variant (spec §4.2 and §9); the body of `Rotate::Transform` in
the missing translation unit is where this happens. -/
noncomputable def toRadians (angle : ℝ) : ℝ :=
  angle * Real.pi / 180

/-- Modelled from the spec (§4.2): the per-point update of `Rotate::rotateX`,
`r` already in radians: y' = y·cos r − z·sin r; z' = y·sin r + z·cos r;
x unchanged. -/
noncomputable def rotateXPoint (r : ℝ) (p : Point) : Point :=
  ⟨p.x, p.y * Real.cos r - p.z * Real.sin r, p.y * Real.sin r + p.z * Real.cos r⟩

/-- Modelled from the spec (§4.2): the per-point update of `Rotate::rotateY`:
z' = z·cos r − x·sin r; x' = z·sin r + x·cos r; y unchanged. -/
noncomputable def rotateYPoint (r : ℝ) (p : Point) : Point :=
  ⟨p.z * Real.sin r + p.x * Real.cos r, p.y, p.z * Real.cos r - p.x * Real.sin r⟩

/-- Modelled from the spec (§4.2): the per-point update of `Rotate::rotateZ`:
x' = x·cos r − y·sin r; y' = x·sin r + y·cos r; z unchanged. -/
noncomputable def rotateZPoint (r : ℝ) (p : Point) : Point :=
  ⟨p.x * Real.cos r - p.y * Real.sin r, p.x * Real.sin r + p.y * Real.cos r, p.z⟩

/-- Modelled from the spec: `Rotate::rotateX` (declared at
transformation.hpp:69, body missing) applies the rotateX update to every
point, converting the angle from degrees first. -/
noncomputable def Rotate.rotateX (vertexes : List Point) (angle : ℝ) : List Point :=
  vertexes.map (rotateXPoint (toRadians angle))

/-- Modelled from the spec: `Rotate::rotateY` (declared at
transformation.hpp:78, body missing). -/
noncomputable def Rotate.rotateY (vertexes : List Point) (angle : ℝ) : List Point :=
  vertexes.map (rotateYPoint (toRadians angle))

/-- Modelled from the spec: `Rotate::rotateZ` (declared at
transformation.hpp:87, body missing). -/
noncomputable def Rotate.rotateZ (vertexes : List Point) (angle : ℝ) : List Point :=
  vertexes.map (rotateZPoint (toRadians angle))

/-- Modelled from the spec: `Rotate::Transform` (declared at
transformation.hpp:58, body missing) dispatches on the `Movement` value and
is a no-op outside `{RotateX, RotateY, RotateZ}` (spec §4.1, §4.2). -/
noncomputable def Rotate.Transform (vertexes : List Point) (move : Movement)
    (angle : ℝ) : List Point :=
  match move with
  | .RotateX => Rotate.rotateX vertexes angle
  | .RotateY => Rotate.rotateY vertexes angle
  | .RotateZ => Rotate.rotateZ vertexes angle
  | _ => vertexes

/-- Modelled from the spec (§4.3): the per-point update of `Move::moveX`,
adding the step to x and leaving y, z untouched. -/
def movePointX (step : ℝ) (p : Point) : Point :=
  ⟨p.x + step, p.y, p.z⟩

/-- Modelled from the spec (§4.3): the per-point update of `Move::moveY`. -/
def movePointY (step : ℝ) (p : Point) : Point :=
  ⟨p.x, p.y + step, p.z⟩

/-- Modelled from the spec (§4.3): the per-point update of `Move::moveZ`. -/
def movePointZ (step : ℝ) (p : Point) : Point :=
  ⟨p.x, p.y, p.z + step⟩

/-- Modelled from the spec: `Move::moveX` (declared at
transformation.hpp:115, body missing). -/
def Move.moveX (vertexes : List Point) (step : ℝ) : List Point :=
  vertexes.map (movePointX step)

/-- Modelled from the spec: `Move::moveY` (declared at
transformation.hpp:124, body missing). -/
def Move.moveY (vertexes : List Point) (step : ℝ) : List Point :=
  vertexes.map (movePointY step)

/-- Modelled from the spec: `Move::moveZ` (declared at
transformation.hpp:133, body missing). -/
def Move.moveZ (vertexes : List Point) (step : ℝ) : List Point :=
  vertexes.map (movePointZ step)

/-- Modelled from the spec: `Move::Transform` (declared at
transformation.hpp:107, body missing) dispatches on the `Movement` value and
is a no-op outside `{MoveX, MoveY, MoveZ}` (spec §4.1, §4.3). -/
def Move.Transform (vertexes : List Point) (move : Movement)
    (step : ℝ) : List Point :=
  match move with
  | .MoveX => Move.moveX vertexes step
  | .MoveY => Move.moveY vertexes step
  | .MoveZ => Move.moveZ vertexes step
  | _ => vertexes

/-- Modelled from the spec (§4.4): the per-point update of `Scale::scale`,
multiplying all three coordinates by the factor. -/
def scalePoint (scal : ℝ) (p : Point) : Point :=
  ⟨p.x * scal, p.y * scal, p.z * scal⟩

/-- Modelled from the spec: `Scale::scale` (declared at
transformation.hpp:160, body missing). -/
def Scale.scale (vertexes : List Point) (scal : ℝ) : List Point :=
  vertexes.map (scalePoint scal)

/-- Modelled from the spec: `Scale::Transform` (declared at
transformation.hpp:153, body missing) handles `SCALE` only and is a no-op
on every other `Movement` value (spec §4.1, §4.4). -/
def Scale.Transform (vertexes : List Point) (move : Movement)
    (scal : ℝ) : List Point :=
  match move with
  | .SCALE => Scale.scale vertexes scal
  | _ => vertexes

/-- The three concrete strategy variants of the abstract class
`TransformationStrategy` (transformation.hpp:29): `Rotate`, `Move`,
`Scale`.  Each is stateless (spec §3), so a value of this inductive type
models which concrete class a strategy pointer targets. -/
inductive TransformationStrategy where
  | rotate
  | move
  | scale
deriving DecidableEq

/-- Virtual dispatch of `TransformationStrategy::Transform`
(transformation.hpp:40) to the bound variant's override. -/
noncomputable def TransformationStrategy.Transform :
    TransformationStrategy → List Point → Movement → ℝ → List Point
  | .rotate, v, m, k => Rotate.Transform v m k
  | .move, v, m, k => Move.Transform v m k
  | .scale, v, m, k => Scale.Transform v m k

/-- Modelled from the spec (§7): the PreconditionError raised when
`TransformModel` is invoked on an Unbound transformer. -/
inductive TransformError where
  | preconditionError
deriving DecidableEq

/-- The facade `ObjectTransformer` (transformation.hpp:165): it holds a
single non-owning pointer `strategy_` to a `TransformationStrategy`.
`none` models the Unbound state (spec §4.5), `some s` the Bound state. -/
structure ObjectTransformer where
  strategy_ : Option TransformationStrategy

/-- Modelled from the spec (§4.5): `ObjectTransformer::set_strategy`
(declared at transformation.hpp:181, body missing) replaces the bound
strategy pointer and always succeeds; it touches no other data. -/
def ObjectTransformer.set_strategy (_t : ObjectTransformer)
    (strategy : TransformationStrategy) : ObjectTransformer :=
  ⟨some strategy⟩

/-- Modelled from the spec (§4.5, §7): `ObjectTransformer::TransformModel`
(declared at transformation.hpp:194, body missing).  In the Unbound state it
fails with a PreconditionError before touching any data; in the Bound state
it forwards verbatim to the bound strategy's `Transform`.  The result pairs
the vertex collection after the call with the optional error. -/
noncomputable def ObjectTransformer.TransformModel (t : ObjectTransformer)
    (vertexes : List Point) (move : Movement) (value : ℝ) :
    List Point × Option TransformError :=
  match t.strategy_ with
  | none => (vertexes, some TransformError.preconditionError)
  | some s => (s.Transform vertexes move value, none)

/-- The subset of `Movement` values each strategy variant supports
(spec §3, §4.2 – §4.4): the complement is exactly the default (no-op)
branch of each variant's `Transform`. -/
def supports : TransformationStrategy → Movement → Bool
  | .rotate, .RotateX => true
  | .rotate, .RotateY => true
  | .rotate, .RotateZ => true
  | .move, .MoveX => true
  | .move, .MoveY => true
  | .move, .MoveZ => true
  | .scale, .SCALE => true
  | _, _ => false

/-- The per-point update a strategy applies for a given movement and
magnitude; the identity on movements outside the variant's supported
subset.  Every variant's `Transform` is the pointwise map of this update
(spec §4.1: "all points received the same, well-defined update"). -/
noncomputable def pointUpdate : TransformationStrategy → Movement → ℝ → Point → Point
  | .rotate, .RotateX, k => rotateXPoint (toRadians k)
  | .rotate, .RotateY, k => rotateYPoint (toRadians k)
  | .rotate, .RotateZ, k => rotateZPoint (toRadians k)
  | .move, .MoveX, k => movePointX k
  | .move, .MoveY, k => movePointY k
  | .move, .MoveZ, k => movePointZ k
  | .scale, .SCALE, k => scalePoint k
  | _, _, _ => id

/-- Helper: every strategy's `Transform` is the pointwise map of
`pointUpdate` over the vertex collection. -/
theorem Transform_eq_map (s : TransformationStrategy) (v : List Point)
    (m : Movement) (k : ℝ) :
    s.Transform v m k = v.map (pointUpdate s m k) := by
  cases s <;> cases m <;>
    simp [TransformationStrategy.Transform, Rotate.Transform, Move.Transform,
      Scale.Transform, Rotate.rotateX, Rotate.rotateY, Rotate.rotateZ,
      Move.moveX, Move.moveY, Move.moveZ, Scale.scale, pointUpdate]

/-- Helper: 90 degrees converts to π/2 radians. -/
theorem toRadians_ninety : toRadians 90 = Real.pi / 2 := by
  unfold toRadians
  ring

/-- C1: calling `TransformModel` on an `ObjectTransformer` in the Unbound
state (no strategy set) fails with a PreconditionError reported to the
caller and leaves the supplied vertex collection completely unchanged. -/
theorem transformModel_unbound_fails (t : ObjectTransformer) (v : List Point)
    (m : Movement) (k : ℝ) (h : t.strategy_ = none) :
    t.TransformModel v m k = (v, some TransformError.preconditionError) := by
  simp [ObjectTransformer.TransformModel, h]

/-- Witness for C1 at the Unbound transformer, vertices [(1,0,0)],
movement MoveX, magnitude 2. -/
theorem transformModel_unbound_fails_witness :
    (ObjectTransformer.mk none).strategy_ = none ∧
      (ObjectTransformer.mk none).TransformModel [(⟨1, 0, 0⟩ : Point)] .MoveX 2 =
        ([(⟨1, 0, 0⟩ : Point)], some TransformError.preconditionError) :=
  ⟨rfl, transformModel_unbound_fails (ObjectTransformer.mk none)
    [(⟨1, 0, 0⟩ : Point)] .MoveX 2 rfl⟩

/-- C2: for every strategy variant, vertex collection and magnitude, if the
`Movement` argument is outside that variant's supported subset, the call is
a no-op: the vertex collection is returned unchanged and no error arises. -/
theorem transform_unsupported_noop (s : TransformationStrategy) (v : List Point)
    (k : ℝ) (m : Movement) (h : supports s m = false) :
    s.Transform v m k = v := by
  cases s <;> cases m <;>
    simp_all [supports, TransformationStrategy.Transform, Rotate.Transform,
      Move.Transform, Scale.Transform]

/-- Witness for C2: a Rotate strategy called with movement MoveX leaves the
vertex collection unchanged. -/
theorem transform_unsupported_noop_witness :
    supports .rotate .MoveX = false ∧
      TransformationStrategy.Transform .rotate [(⟨1, 2, 3⟩ : Point)] .MoveX 5 =
        [(⟨1, 2, 3⟩ : Point)] :=
  ⟨by decide, transform_unsupported_noop .rotate [(⟨1, 2, 3⟩ : Point)] 5 .MoveX
    (by decide)⟩

/-- C3: `Rotate`'s transform with movement RotateZ interprets the magnitude
as degrees, converts it to radians, and maps every point (x, y, z)
independently to (x·cos r − y·sin r, x·sin r + y·cos r, z); the point
(1, 0, 0) under RotateZ with magnitude 90 becomes exactly (0, 1, 0)
(hence within 1e-9). -/
theorem rotateZ_degrees_formula (v : List Point) (a : ℝ) :
    Rotate.Transform v .RotateZ a =
      v.map (fun p : Point =>
        ⟨p.x * Real.cos (toRadians a) - p.y * Real.sin (toRadians a),
          p.x * Real.sin (toRadians a) + p.y * Real.cos (toRadians a), p.z⟩) ∧
    Rotate.Transform [(⟨1, 0, 0⟩ : Point)] .RotateZ 90 = [(⟨0, 1, 0⟩ : Point)] := by
  constructor
  · rfl
  · simp [Rotate.Transform, Rotate.rotateZ, rotateZPoint, toRadians_ninety,
      Real.cos_pi_div_two, Real.sin_pi_div_two]

/-- C4: `Move`'s transform with MoveX adds the step to the x coordinate of
every point and leaves y and z untouched; MoveY and MoveZ correspondingly
add only to y and only to z; the point (2, 3, 4) under MoveX with
magnitude 5 becomes exactly (7, 3, 4). -/
theorem move_adds_step (v : List Point) (d : ℝ) :
    Move.Transform v .MoveX d = v.map (fun p : Point => ⟨p.x + d, p.y, p.z⟩) ∧
    Move.Transform v .MoveY d = v.map (fun p : Point => ⟨p.x, p.y + d, p.z⟩) ∧
    Move.Transform v .MoveZ d = v.map (fun p : Point => ⟨p.x, p.y, p.z + d⟩) ∧
    Move.Transform [(⟨2, 3, 4⟩ : Point)] .MoveX 5 = [(⟨7, 3, 4⟩ : Point)] := by
  refine ⟨rfl, rfl, rfl, ?_⟩
  norm_num [Move.Transform, Move.moveX, movePointX]

/-- C5: `Scale`'s transform with movement SCALE multiplies all three
coordinates of every point by the magnitude; magnitude 0 collapses every
point to the origin, a negative magnitude mirrors the scaled model through
the origin, and [(1,1,1), (2,2,2)] under magnitude 2 becomes exactly
[(2,2,2), (4,4,4)]. -/
theorem scale_multiplies (v : List Point) (k : ℝ) :
    Scale.Transform v .SCALE k = v.map (fun p : Point => ⟨p.x * k, p.y * k, p.z * k⟩) ∧
    Scale.Transform v .SCALE 0 = v.map (fun _ : Point => (⟨0, 0, 0⟩ : Point)) ∧
    Scale.Transform v .SCALE (-k) =
      (Scale.Transform v .SCALE k).map (fun p : Point => ⟨-p.x, -p.y, -p.z⟩) ∧
    Scale.Transform [(⟨1, 1, 1⟩ : Point), ⟨2, 2, 2⟩] .SCALE 2 =
      [(⟨2, 2, 2⟩ : Point), ⟨4, 4, 4⟩] := by
  refine ⟨rfl, ?_, ?_, ?_⟩
  · simp only [Scale.Transform, Scale.scale]
    apply List.map_congr_left
    intro p _
    simp [scalePoint]
  · simp only [Scale.Transform, Scale.scale, List.map_map]
    apply List.map_congr_left
    intro p _
    simp [scalePoint, Function.comp]
  · norm_num [Scale.Transform, Scale.scale, scalePoint]

/-- C6: every transform call, on any strategy variant with any movement and
magnitude, preserves the vertex collection's length and index order: the
point at position i after the call is the per-point update of the point
that was at position i before the call. -/
theorem transform_preserves_length_and_order (s : TransformationStrategy)
    (v : List Point) (m : Movement) (k : ℝ) :
    (s.Transform v m k).length = v.length ∧
    ∀ i : ℕ, (s.Transform v m k)[i]? = v[i]?.map (pointUpdate s m k) := by
  rw [Transform_eq_map]
  exact ⟨List.length_map v _, fun i => List.getElem?_map _ v i⟩

/-- C7: for every transformer in the Bound state with bound strategy s,
`TransformModel` has exactly the same effect on the vertex collection as
calling s's `Transform` directly, with no error and no added checks. -/
theorem transformModel_bound_forwards (s : TransformationStrategy)
    (v : List Point) (m : Movement) (k : ℝ) :
    (ObjectTransformer.mk (some s)).TransformModel v m k = (s.Transform v m k, none) :=
  rfl

/-- C8: applying `Move`'s transform with MoveX and magnitude d and then
again with magnitude −d restores every point exactly. -/
theorem moveX_then_inverse (v : List Point) (d : ℝ) :
    Move.Transform (Move.Transform v .MoveX d) .MoveX (-d) = v := by
  simp only [Move.Transform, Move.moveX, List.map_map]
  have h : movePointX (-d) ∘ movePointX d = id := by
    funext p
    simp [movePointX]
  rw [h, List.map_id]

/-- C9: rotation about different axes does not commute: there are nonzero
angles a, b and a point p such that RotateX by a followed by RotateY by b
differs from RotateY by b followed by RotateX by a. -/
theorem rotate_axes_noncommutative :
    ∃ (a b : ℝ) (p : Point), a ≠ 0 ∧ b ≠ 0 ∧
      Rotate.Transform (Rotate.Transform [p] .RotateX a) .RotateY b ≠
        Rotate.Transform (Rotate.Transform [p] .RotateY b) .RotateX a := by
  refine ⟨90, 90, ⟨0, 1, 0⟩, by norm_num, by norm_num, ?_⟩
  simp only [Rotate.Transform, Rotate.rotateX, Rotate.rotateY, rotateXPoint,
    rotateYPoint, toRadians_ninety, Real.cos_pi_div_two, Real.sin_pi_div_two,
    List.map_cons, List.map_nil]
  intro h
  have hx := congrArg Point.x (List.head_eq_of_cons_eq h)
  norm_num at hx

/-- C10: for every transformer state and strategy s, `set_strategy s`
always succeeds, its only effect is to replace the bound strategy pointer
with s (the transformer has no other state, and no vertex or point data is
read or written), and afterwards `TransformModel` dispatches through s. -/
theorem set_strategy_binds_only (t : ObjectTransformer)
    (s : TransformationStrategy) (v : List Point) (m : Movement) (k : ℝ) :
    t.set_strategy s = ObjectTransformer.mk (some s) ∧
    (t.set_strategy s).TransformModel v m k = (s.Transform v m k, none) :=
  ⟨rfl, rfl⟩

end s21
